import Mathlib

/-!
Verification of the 2D laser range sensor `Laser2D` (laser2D.py).

The Python class is embedded shallowly over the real numbers: the sensor
configuration and pose become a structure, and the method `take_observation`
becomes a pure function from a sensor state and a map (a list of 2D points,
the columns of the Python 2×N array) to the 2×n_beams observation table,
modelled as a pair of lists (row 0 = ranges, row 1 = bearings).

All claims under study concern the noiseless behaviour (zero noise
covariance); since `np.random.normal(0, sqrt 0) = 0` exactly, the embedding
omits the additive noise terms, which is exact for a zero covariance matrix.
-/

namespace Laser

open Real

noncomputable section

open scoped Classical

/-- The auxiliary determinant helper defined inside `take_observation`:
`det(a, b) = a[0]*b[1] - a[1]*b[0]`. -/
def det (a b : ℝ × ℝ) : ℝ := a.1 * b.2 - a.2 * b.1

/-- The single-step angle wrap used twice in `take_observation`:
`if phi > pi: phi -= 2*pi  elif phi < -pi: phi += 2*pi`. -/
def wrap (φ : ℝ) : ℝ :=
  if φ > Real.pi then φ - 2 * Real.pi
  else if φ < -Real.pi then φ + 2 * Real.pi
  else φ

/-- Real-valued model of `math.atan2 y x` (the two-argument arctangent:
the angle of the vector (x, y), in (-π, π], with `atan2 0 0 = 0`). -/
def atan2 (y x : ℝ) : ℝ :=
  if 0 < x then Real.arctan (y / x)
  else if x < 0 ∧ 0 ≤ y then Real.arctan (y / x) + Real.pi
  else if x < 0 ∧ y < 0 then Real.arctan (y / x) - Real.pi
  else if x = 0 ∧ 0 < y then Real.pi / 2
  else if x = 0 ∧ y < 0 then -(Real.pi / 2)
  else 0

/-- The sensor state: configuration fields, pose `(x, y, theta)`, and the
`last_z` field set by the constructor.  `noise_cov` is the 2×2 covariance
matrix; only its diagonal is ever read by the Python code, and the claims
under study fix it to zero. -/
structure Laser2D where
  FOV : ℝ
  resolution : ℝ
  max_distance : ℝ
  noise_cov : (ℝ × ℝ) × (ℝ × ℝ)
  pose : ℝ × ℝ × ℝ
  last_z : List ℝ × List ℝ

/-- The constructor `__init__`: stores the configuration and pose and
initialises `last_z` to an empty array. -/
def init (FOV resolution max_distance : ℝ) (noise_cov : (ℝ × ℝ) × (ℝ × ℝ))
    (pose : ℝ × ℝ × ℝ) : Laser2D :=
  ⟨FOV, resolution, max_distance, noise_cov, pose, ([], [])⟩

/-- Beam count: `n_beams = math.floor(self.FOV / self.resolution) + 1`
(a Python int, hence ℤ; the beam loop `range(n_beams)` is empty when it
is ≤ 0). -/
def n_beams (s : Laser2D) : ℤ := ⌊s.FOV / s.resolution⌋ + 1

/-- One entry of the precomputed `seg_distance` array: the Euclidean length
of the segment from `p` to `q`. -/
def seg_distance (p q : ℝ × ℝ) : ℝ :=
  Real.sqrt ((p.1 - q.1) ^ 2 + (p.2 - q.2) ^ 2)

/-- The bearing `phi_m` from the sensor position `(px, py)` to the
intersection point `(x, y)`:
`atan2(0-(x-px), (y-py)-0) + 90*pi/180`, then wrapped once. -/
def phi_m (px py x y : ℝ) : ℝ :=
  wrap (atan2 (0 - (x - px)) ((y - py) - 0) + 90 * Real.pi / 180)

/-- The direction filter: `np.sign(phi) == np.sign(phi_m)` (numpy sign is
-1, 0 or 1, as is `Real.sign`). -/
def direction_check (φ px py x y : ℝ) : Prop :=
  Real.sign φ = Real.sign (phi_m px py x y)

/-- The body of the inner loop of `take_observation` for one segment
`(p, q)` of the map: the candidate hit distance this segment contributes to
the beam with wrapped angle `φ` and endpoint `(x_beam, y_beam)`, from a
sensor at `(px, py)`.  `none` when the lines are parallel (`div == 0`,
`continue`), when the intersection fails the segment-membership check, or
when it fails the direction filter; otherwise `some` of the Euclidean
distance from the sensor to the intersection point. -/
def seg_candidate (px py x_beam y_beam φ : ℝ) (p q : ℝ × ℝ) : Option ℝ :=
  let xdiff : ℝ × ℝ := (p.1 - q.1, px - x_beam)
  let ydiff : ℝ × ℝ := (p.2 - q.2, py - y_beam)
  let div := det xdiff ydiff
  if div = 0 then none
  else
    let de : ℝ × ℝ := (det p q, det (px, py) (x_beam, y_beam))
    let x := det de xdiff / div
    let y := det de ydiff / div
    let d_to_intersect := Real.sqrt ((px - x) ^ 2 + (py - y) ^ 2)
    let d1 := Real.sqrt ((p.1 - x) ^ 2 + (p.2 - y) ^ 2)
    let d2 := Real.sqrt ((q.1 - x) ^ 2 + (q.2 - y) ^ 2)
    let th_for_corners : ℝ := 0.05
    if d1 < seg_distance p q + th_for_corners ∧
        d2 < seg_distance p q + th_for_corners then
      if direction_check φ px py x y then some d_to_intersect else none
    else none

/-- The consecutive point pairs of the map: the Python loop
`for i_line in range(map.shape[1]-1)` pairing column `i_line` with column
`i_line+1`. -/
def segments (m : List (ℝ × ℝ)) : List ((ℝ × ℝ) × (ℝ × ℝ)) :=
  m.zip m.tail

/-- The wrapped beam angle for beam `i`:
`phi = i*resolution - FOV/2 + pose[2]`, then the single-step wrap. -/
def beam_phi (s : Laser2D) (i : ℕ) : ℝ :=
  wrap ((i : ℝ) * s.resolution - s.FOV / 2 + s.pose.2.2)

/-- The noiseless measured range of beam `i` (`z[0, i]` with zero noise
covariance): starting from `d = max_distance`, fold over the map segments,
replacing `d` by a candidate hit distance whenever it is smaller
(`if d_to_intersect < d: d = d_to_intersect`). -/
def beam_range (s : Laser2D) (m : List (ℝ × ℝ)) (i : ℕ) : ℝ :=
  let φ := beam_phi s i
  let x_beam := s.pose.1 + s.max_distance * Real.cos φ
  let y_beam := s.pose.2.1 + s.max_distance * Real.sin φ
  (segments m).foldl
    (fun d pq =>
      match seg_candidate s.pose.1 s.pose.2.1 x_beam y_beam φ pq.1 pq.2 with
      | some t => if t < d then t else d
      | none => d)
    s.max_distance

/-- The noiseless measured bearing of beam `i` (`z[1, i]` with zero noise
covariance): `i*resolution - FOV/2`, stored without wrapping and without
the pose heading. -/
def beam_bearing (s : Laser2D) (i : ℕ) : ℝ :=
  (i : ℝ) * s.resolution - s.FOV / 2

/-- The method `take_observation` with zero noise covariance: the
2×n_beams table `z` as (row 0 = ranges, row 1 = bearings). -/
def take_observation (s : Laser2D) (m : List (ℝ × ℝ)) : List ℝ × List ℝ :=
  ((List.range (n_beams s).toNat).map (beam_range s m),
   (List.range (n_beams s).toNat).map (beam_bearing s))

/-- The method `take_observation` together with the sensor state at
return: the method body assigns to no field of `self` (in particular it
never writes `self.last_z`), so the returned state is the input state. -/
def take_observation_state (s : Laser2D) (m : List (ℝ × ℝ)) :
    (List ℝ × List ℝ) × Laser2D :=
  (take_observation s m, s)

/-- Spec-side description for the closest-hit claim: the list of distances
from the sensor to the intersection points that pass both the
segment-membership check and the direction check, for beam `i`. -/
def accepted_distances (s : Laser2D) (m : List (ℝ × ℝ)) (i : ℕ) : List ℝ :=
  let φ := beam_phi s i
  let x_beam := s.pose.1 + s.max_distance * Real.cos φ
  let y_beam := s.pose.2.1 + s.max_distance * Real.sin φ
  (segments m).filterMap
    (fun pq => seg_candidate s.pose.1 s.pose.2.1 x_beam y_beam φ pq.1 pq.2)

/-- Concrete sensor used as a counterexample input for the angle-wrap
interval claim: FOV = 2π, resolution = 1, heading 0, so beam 0 has the
unwrapped angle 0*1 - (2π)/2 + 0 = -π. -/
def c5_sensor : Laser2D := init (2 * Real.pi) 1 10 ((0, 0), (0, 0)) (0, 0, 0)

/-- The sensor of the concrete scenario: FOV = π, resolution = π/2,
max_distance = 10, zero noise covariance, pose (0, 0, 0). -/
def demo_sensor : Laser2D :=
  init Real.pi (Real.pi / 2) 10 ((0, 0), (0, 0)) (0, 0, 0)

/-- The map of the concrete scenario: a single wall segment from (5, -5)
to (5, 5). -/
def demo_map : List (ℝ × ℝ) := [(5, -5), (5, 5)]

/-! ## Helper lemmas -/

/-- The conditional update `if t < d then t else d` is `min d t`. -/
theorem ite_lt_eq_min (t d : ℝ) : (if t < d then t else d) = min d t := by
  rw [min_def]
  by_cases h : t < d
  · simp [h, le_of_lt, not_le.mpr h]
  · simp [h, not_lt.mp h]

/-- Folding the conditional update over a list equals folding `min` over
the sublist of accepted candidates. -/
theorem foldl_update_eq_foldl_min {α : Type} (f : α → Option ℝ) :
    ∀ (l : List α) (d : ℝ),
      l.foldl
          (fun d a =>
            match f a with
            | some t => if t < d then t else d
            | none => d) d
        = (l.filterMap f).foldl min d := by
  intro l
  induction l with
  | nil => intro d; rfl
  | cons a l ih =>
    intro d
    cases h : f a with
    | none =>
      simp only [List.foldl_cons, List.filterMap_cons, h]
      exact ih d
    | some t =>
      simp only [List.foldl_cons, List.filterMap_cons, h]
      rw [ite_lt_eq_min]
      exact ih (min d t)

/-! ## Claims -/

/-- C1: for every sensor state and map, the noiseless measured range of
each beam (row 0 of the observation) equals the fold of `min` over the
distances of the intersection points that pass both the
segment-membership check and the direction check, starting from
`max_distance` (closest hit wins, `max_distance` when nothing is hit). -/
theorem c1_range_is_min_of_accepted (s : Laser2D) (m : List (ℝ × ℝ)) :
    (take_observation s m).1
      = (List.range (n_beams s).toNat).map
          (fun i => (accepted_distances s m i).foldl min s.max_distance) := by
  unfold take_observation
  refine List.map_congr_left ?_
  intro i _
  unfold beam_range accepted_distances
  exact foldl_update_eq_foldl_min _ _ _

/-- C4: for every sensor state and map, the noiseless bearing row (row 1 of
the observation) is exactly `i*resolution - FOV/2` for each beam index `i`:
it is not wrapped and the pose heading `pose[2]` does not appear. -/
theorem c4_bearing_nominal (s : Laser2D) (m : List (ℝ × ℝ)) :
    (take_observation s m).2
      = (List.range (n_beams s).toNat).map
          (fun (i : ℕ) => (i : ℝ) * s.resolution - s.FOV / 2) := by
  unfold take_observation beam_bearing
  rfl

/-- C9 (amended): `take_observation` performs no state change at all: the
sensor state at return (configuration, pose, and the `last_z` field) equals
the state at entry, and in particular `last_z` is NOT updated to the
returned observation. -/
theorem c9_no_state_change (s : Laser2D) (m : List (ℝ × ℝ)) :
    (take_observation_state s m).2 = s := rfl

/-- C5 (amended): if the unwrapped beam angle
`i*resolution - FOV/2 + pose.theta` lies in (-3π, 3π], the single-step
wrap lands in the closed interval [-π, π] (the endpoint -π is attained:
an input of exactly -π is left unchanged, so the open-left interval
(-π, π] of the original claim is off by that one point). -/
theorem c5_wrap_bounds (s : Laser2D) (i : ℕ)
    (h1 : -(3 * Real.pi) < (i : ℝ) * s.resolution - s.FOV / 2 + s.pose.2.2)
    (h2 : (i : ℝ) * s.resolution - s.FOV / 2 + s.pose.2.2 ≤ 3 * Real.pi) :
    -Real.pi ≤ beam_phi s i ∧ beam_phi s i ≤ Real.pi := by
  have hπ := Real.pi_pos
  unfold beam_phi wrap
  split_ifs with ha hb
  · constructor <;> linarith
  · constructor <;> linarith
  · push_neg at ha hb
    constructor <;> linarith

/-- C5 witness: the demo-style sensor `c5_sensor` at beam 1 has unwrapped
angle 1 - π ∈ (-3π, 3π], and the wrapped angle lies in [-π, π]. -/
theorem c5_wrap_bounds_witness :
    -Real.pi ≤ beam_phi c5_sensor 1 ∧ beam_phi c5_sensor 1 ≤ Real.pi :=
  c5_wrap_bounds c5_sensor 1
    (by simp [c5_sensor, init]; nlinarith [Real.pi_gt_three])
    (by simp [c5_sensor, init]; nlinarith [Real.pi_gt_three])

/-- C5 counterexample: for `c5_sensor` and beam 0 the unwrapped angle is
exactly -π, which satisfies the precondition (-3π, 3π], yet the wrapped
angle is -π, which is NOT in the half-open interval (-π, π] the claim
asserts. -/
theorem c5_counterexample :
    (-(3 * Real.pi) < ((0 : ℕ) : ℝ) * c5_sensor.resolution - c5_sensor.FOV / 2
        + c5_sensor.pose.2.2
      ∧ ((0 : ℕ) : ℝ) * c5_sensor.resolution - c5_sensor.FOV / 2
        + c5_sensor.pose.2.2 ≤ 3 * Real.pi)
    ∧ ¬ (-Real.pi < beam_phi c5_sensor 0 ∧ beam_phi c5_sensor 0 ≤ Real.pi) := by
  have hπ := Real.pi_pos
  have hu : ((0 : ℕ) : ℝ) * c5_sensor.resolution - c5_sensor.FOV / 2
      + c5_sensor.pose.2.2 = -Real.pi := by
    simp [c5_sensor, init]
  have hb : beam_phi c5_sensor 0 = -Real.pi := by
    unfold beam_phi
    rw [hu]
    unfold wrap
    rw [if_neg (by linarith), if_neg (by linarith)]
  refine ⟨⟨by rw [hu]; linarith, by rw [hu]; linarith⟩, ?_⟩
  rw [hb]
  intro hc
  exact lt_irrefl _ hc.1

/-- C6: the direction filter accepts an intersection point `(x, y)` exactly
when the sign of `phi_m` (the atan2-with-90°-offset bearing from the
sensor to the point, wrapped once) equals the sign of the wrapped beam
angle `φ`; in the edge case `φ = 0` (sign 0) it accepts exactly when
`phi_m = 0`. -/
theorem c6_direction_filter (φ px py x y : ℝ) :
    (direction_check φ px py x y ↔ Real.sign (phi_m px py x y) = Real.sign φ)
    ∧ (φ = 0 → (direction_check φ px py x y ↔ phi_m px py x y = 0)) := by
  constructor
  · unfold direction_check
    exact eq_comm
  · intro hφ
    subst hφ
    unfold direction_check
    rw [Real.sign_zero]
    constructor
    · intro h
      exact Real.sign_eq_zero_iff.mp h.symm
    · intro h
      rw [h, Real.sign_zero]

/-- C6 witness: at `φ = 0`, the filter applied to the point (5, 0) seen
from the origin reduces to the equation `phi_m = 0`. -/
theorem c6_direction_filter_witness :
    direction_check 0 0 0 5 0 ↔ phi_m 0 0 5 0 = 0 :=
  (c6_direction_filter 0 0 0 5 0).2 rfl

/-- C7: whenever the direction-difference determinant `div` is zero
(parallel or coincident lines, including zero-length segments), the
segment is skipped: it contributes no candidate hit, so the divisions by
`div` in the intersection formula are never evaluated with `div = 0`. -/
theorem c7_parallel_skip (px py x_beam y_beam φ : ℝ) (p q : ℝ × ℝ)
    (h : det (p.1 - q.1, px - x_beam) (p.2 - q.2, py - y_beam) = 0) :
    seg_candidate px py x_beam y_beam φ p q = none := by
  unfold seg_candidate
  simp only [h, if_pos]

/-- C7 witness: a horizontal segment seen by a horizontal beam has a zero
determinant and is skipped. -/
theorem c7_parallel_skip_witness :
    seg_candidate 0 0 10 0 0 (1, 1) (2, 1) = none :=
  c7_parallel_skip 0 0 10 0 0 (1, 1) (2, 1) (by norm_num [det])

/-- C3: for every map and every configuration with FOV > 0 and
resolution > 0, both rows of the observation have exactly
`floor(FOV/resolution) + 1` entries (the table is 2 × n_beams). -/
theorem c3_observation_shape (s : Laser2D) (m : List (ℝ × ℝ))
    (hF : 0 < s.FOV) (hr : 0 < s.resolution) :
    ((take_observation s m).1.length : ℤ) = ⌊s.FOV / s.resolution⌋ + 1
    ∧ ((take_observation s m).2.length : ℤ) = ⌊s.FOV / s.resolution⌋ + 1 := by
  have h0 : 0 ≤ ⌊s.FOV / s.resolution⌋ := Int.floor_nonneg.mpr (div_pos hF hr).le
  have ht : ((n_beams s).toNat : ℤ) = ⌊s.FOV / s.resolution⌋ + 1 := by
    unfold n_beams
    rw [Int.toNat_of_nonneg (by omega)]
  constructor <;> simp [take_observation, ht]

/-- C3 witness: the concrete scenario's observation has
⌊π/(π/2)⌋ + 1 entries in each row. -/
theorem c3_observation_shape_witness :
    ((take_observation demo_sensor demo_map).1.length : ℤ)
        = ⌊demo_sensor.FOV / demo_sensor.resolution⌋ + 1
    ∧ ((take_observation demo_sensor demo_map).2.length : ℤ)
        = ⌊demo_sensor.FOV / demo_sensor.resolution⌋ + 1 :=
  c3_observation_shape demo_sensor demo_map
    (by simp [demo_sensor, init, Real.pi_pos])
    (by simp [demo_sensor, init, Real.pi_pos])

/-- C8: a map with fewer than 2 points yields zero segments, and the call
returns normally with every noiseless range equal to `max_distance`. -/
theorem c8_degenerate_map (s : Laser2D) (m : List (ℝ × ℝ))
    (h : m.length < 2) :
    (take_observation s m).1
      = List.replicate (n_beams s).toNat s.max_distance := by
  have hseg : segments m = [] := by
    unfold segments
    cases m with
    | nil => rfl
    | cons a t =>
      cases t with
      | nil => rfl
      | cons b t' =>
        simp only [List.length_cons] at h
        omega
  have hb : beam_range s m = fun _ => s.max_distance := by
    funext i
    unfold beam_range
    rw [hseg]
    rfl
  unfold take_observation
  rw [hb, List.map_const', List.length_range]

/-- C8 witness: the empty map gives max_distance on every beam of the
demo sensor. -/
theorem c8_degenerate_map_witness :
    (take_observation demo_sensor []).1
      = List.replicate (n_beams demo_sensor).toNat demo_sensor.max_distance :=
  c8_degenerate_map demo_sensor [] (by simp)

/-- Any candidate hit distance produced by a segment is a Euclidean
distance, hence nonnegative. -/
theorem seg_candidate_nonneg {px py x_beam y_beam φ : ℝ} {p q : ℝ × ℝ}
    {t : ℝ} (h : seg_candidate px py x_beam y_beam φ p q = some t) :
    0 ≤ t := by
  simp only [seg_candidate] at h
  split_ifs at h
  simp only [Option.some.injEq] at h
  rw [← h]
  exact Real.sqrt_nonneg _

/-- Folding `min` over a list never exceeds the initial value. -/
theorem foldl_min_le_init (l : List ℝ) : ∀ d : ℝ, l.foldl min d ≤ d := by
  induction l with
  | nil => intro d; exact le_refl d
  | cons a l ih => intro d; exact le_trans (ih (min d a)) (min_le_left d a)

/-- A common lower bound of the initial value and all list elements is a
lower bound of the `min`-fold. -/
theorem le_foldl_min :
    ∀ (l : List ℝ) (c d : ℝ), (∀ x ∈ l, c ≤ x) → c ≤ d → c ≤ l.foldl min d := by
  intro l
  induction l with
  | nil => intro c d _ hd; exact hd
  | cons a l ih =>
    intro c d hl hd
    exact ih c (min d a) (fun x hx => hl x (List.mem_cons_of_mem a hx))
      (le_min hd (hl a (List.mem_cons_self a l)))

/-- The noiseless range of a beam lies in [0, max_distance] whenever
max_distance is nonnegative. -/
theorem beam_range_bounds (s : Laser2D) (m : List (ℝ × ℝ)) (i : ℕ)
    (h : 0 ≤ s.max_distance) :
    0 ≤ beam_range s m i ∧ beam_range s m i ≤ s.max_distance := by
  have heq : beam_range s m i
      = (accepted_distances s m i).foldl min s.max_distance := by
    unfold beam_range accepted_distances
    exact foldl_update_eq_foldl_min _ _ _
  rw [heq]
  constructor
  · refine le_foldl_min _ _ _ ?_ h
    intro x hx
    simp only [accepted_distances, List.mem_filterMap] at hx
    obtain ⟨pq, _, hpq⟩ := hx
    exact seg_candidate_nonneg hpq
  · exact foldl_min_le_init _ _

/-- C10: every noiseless range output lies in the closed interval
[0, max_distance] (stated for every index `i` via `getD`, whose default
value `max_distance` also satisfies the bounds, so the statement covers
exactly the entries of row 0). -/
theorem c10_range_in_bounds (s : Laser2D) (m : List (ℝ × ℝ)) (i : ℕ)
    (h : 0 ≤ s.max_distance) :
    0 ≤ (take_observation s m).1.getD i s.max_distance
    ∧ (take_observation s m).1.getD i s.max_distance ≤ s.max_distance := by
  unfold take_observation
  rw [List.getD_eq_getElem?_getD]
  by_cases hi : i < (n_beams s).toNat
  · rw [List.getElem?_map, List.getElem?_range hi]
    exact beam_range_bounds s m i h
  · rw [List.getElem?_eq_none (by simpa using not_lt.mp hi)]
    exact ⟨h, le_refl _⟩

/-- C10 witness: the first range of the concrete scenario lies in
[0, 10]. -/
theorem c10_range_in_bounds_witness :
    0 ≤ (take_observation demo_sensor demo_map).1.getD 0
          demo_sensor.max_distance
    ∧ (take_observation demo_sensor demo_map).1.getD 0
          demo_sensor.max_distance ≤ demo_sensor.max_distance :=
  c10_range_in_bounds demo_sensor demo_map 0
    (by simp [demo_sensor, init])

/-- The demo configuration has ⌊π/(π/2)⌋ + 1 = 3 beams. -/
theorem demo_n_beams : (n_beams demo_sensor).toNat = 3 := by
  have hq : demo_sensor.FOV / demo_sensor.resolution = 2 := by
    simp only [demo_sensor, init]
    rw [div_div_eq_mul_div, mul_comm, mul_div_assoc, div_self Real.pi_ne_zero,
      mul_one]
  unfold n_beams
  rw [hq]
  norm_num
  rfl

/-- C9 counterexample: with the concrete scenario, the `last_z` field of
the sensor state returned by `take_observation` is still the empty array
from the constructor, not the returned observation (which has 3 beams):
the method never writes the last-observation cache. -/
theorem c9_counterexample :
    (take_observation_state demo_sensor demo_map).2.last_z
      ≠ (take_observation_state demo_sensor demo_map).1 := by
  intro hcontra
  have hlen : (take_observation_state demo_sensor demo_map).1.1.length = 3 := by
    simp [take_observation_state, take_observation, demo_n_beams]
  rw [← hcontra] at hlen
  simp [take_observation_state, demo_sensor, init] at hlen

/-- The demo map consists of the single wall segment. -/
theorem demo_segments : segments demo_map = [((5, -5), (5, 5))] := rfl

/-- Beam 0 of the demo sensor points at angle -π/2. -/
theorem demo_phi_0 : beam_phi demo_sensor 0 = -(Real.pi / 2) := by
  have hπ := Real.pi_pos
  unfold beam_phi
  have hu : ((0 : ℕ) : ℝ) * demo_sensor.resolution - demo_sensor.FOV / 2
      + demo_sensor.pose.2.2 = -(Real.pi / 2) := by
    simp only [demo_sensor, init]
    push_cast
    ring
  rw [hu]
  unfold wrap
  rw [if_neg (by linarith), if_neg (by linarith)]

/-- Beam 1 of the demo sensor points at angle 0. -/
theorem demo_phi_1 : beam_phi demo_sensor 1 = 0 := by
  have hπ := Real.pi_pos
  unfold beam_phi
  have hu : ((1 : ℕ) : ℝ) * demo_sensor.resolution - demo_sensor.FOV / 2
      + demo_sensor.pose.2.2 = 0 := by
    simp only [demo_sensor, init]
    push_cast
    ring
  rw [hu]
  unfold wrap
  rw [if_neg (by linarith), if_neg (by linarith)]

/-- Beam 2 of the demo sensor points at angle π/2. -/
theorem demo_phi_2 : beam_phi demo_sensor 2 = Real.pi / 2 := by
  have hπ := Real.pi_pos
  unfold beam_phi
  have hu : ((2 : ℕ) : ℝ) * demo_sensor.resolution - demo_sensor.FOV / 2
      + demo_sensor.pose.2.2 = Real.pi / 2 := by
    simp only [demo_sensor, init]
    push_cast
    ring
  rw [hu]
  unfold wrap
  rw [if_neg (by linarith), if_neg (by linarith)]

/-- The square root of 25 is 5. -/
theorem sqrt_25 : Real.sqrt 25 = 5 := by
  rw [show (25 : ℝ) = 5 ^ 2 by norm_num, Real.sqrt_sq (by norm_num : (0:ℝ) ≤ 5)]

/-- The square root of 100 is 10. -/
theorem sqrt_100 : Real.sqrt 100 = 10 := by
  rw [show (100 : ℝ) = 10 ^ 2 by norm_num,
    Real.sqrt_sq (by norm_num : (0:ℝ) ≤ 10)]

/-- The bearing from the origin to the frontal hit point (5, 0):
atan2(-5, 0) + π/2 = -π/2 + π/2 = 0, wrapped to 0. -/
theorem demo_phi_m : phi_m 0 0 5 0 = 0 := by
  have hπ := Real.pi_pos
  unfold phi_m
  have h1 : atan2 (0 - (5 - 0)) ((0 - 0) - 0) = -(Real.pi / 2) := by
    norm_num [atan2]
  rw [h1]
  have h2 : -(Real.pi / 2) + 90 * Real.pi / 180 = 0 := by ring
  rw [h2]
  unfold wrap
  rw [if_neg (by linarith), if_neg (by linarith)]

/-- The frontal hit point (5, 0) passes the direction filter of the
zero-angle beam. -/
theorem demo_direction : direction_check 0 0 0 5 0 := by
  unfold direction_check
  rw [demo_phi_m]

/-- The wall segment hit by the frontal beam: intersection at (5, 0),
distance 5. -/
theorem demo_candidate_1 :
    seg_candidate 0 0 10 0 0 (5, -5) (5, 5) = some 5 := by
  norm_num [seg_candidate, det, seg_distance, sqrt_25, sqrt_100,
    demo_direction]

/-- Noiseless range of demo beam 0 (pointing along -y): no hit, 10. -/
theorem demo_range_0 : beam_range demo_sensor demo_map 0 = 10 := by
  unfold beam_range
  rw [demo_segments, demo_phi_0]
  simp only [demo_sensor, init, List.foldl_cons, List.foldl_nil]
  rw [Real.cos_neg, Real.cos_pi_div_two, Real.sin_neg, Real.sin_pi_div_two]
  norm_num [seg_candidate, det]

/-- Noiseless range of demo beam 1 (pointing along +x into the wall): 5. -/
theorem demo_range_1 : beam_range demo_sensor demo_map 1 = 5 := by
  unfold beam_range
  rw [demo_segments, demo_phi_1]
  simp only [demo_sensor, init, List.foldl_cons, List.foldl_nil]
  rw [Real.cos_zero, Real.sin_zero]
  norm_num [demo_candidate_1]

/-- Noiseless range of demo beam 2 (pointing along +y): no hit, 10. -/
theorem demo_range_2 : beam_range demo_sensor demo_map 2 = 10 := by
  unfold beam_range
  rw [demo_segments, demo_phi_2]
  simp only [demo_sensor, init, List.foldl_cons, List.foldl_nil]
  rw [Real.cos_pi_div_two, Real.sin_pi_div_two]
  norm_num [seg_candidate, det]

/-- Noiseless bearing of demo beam 0. -/
theorem demo_bearing_0 : beam_bearing demo_sensor 0 = -(Real.pi / 2) := by
  unfold beam_bearing
  simp only [demo_sensor, init]
  push_cast
  ring

/-- Noiseless bearing of demo beam 1. -/
theorem demo_bearing_1 : beam_bearing demo_sensor 1 = 0 := by
  unfold beam_bearing
  simp only [demo_sensor, init]
  push_cast
  ring

/-- Noiseless bearing of demo beam 2. -/
theorem demo_bearing_2 : beam_bearing demo_sensor 2 = Real.pi / 2 := by
  unfold beam_bearing
  simp only [demo_sensor, init]
  push_cast
  ring

/-- C2: in the concrete scenario (FOV = π, resolution = π/2,
max_distance = 10, zero noise, pose (0,0,0), wall from (5,-5) to (5,5)),
there are 3 beams at angles -π/2, 0, π/2, and the noiseless ranges are
exactly 10, 5, 10. -/
theorem c2_concrete_scenario :
    n_beams demo_sensor = 3
    ∧ (take_observation demo_sensor demo_map).1 = [10, 5, 10]
    ∧ (take_observation demo_sensor demo_map).2
        = [-(Real.pi / 2), 0, Real.pi / 2] := by
  have hn := demo_n_beams
  have hn3 : n_beams demo_sensor = 3 := by omega
  refine ⟨hn3, ?_, ?_⟩
  · unfold take_observation
    rw [hn, show List.range 3 = [0, 1, 2] from rfl]
    simp only [List.map_cons, List.map_nil]
    rw [demo_range_0, demo_range_1, demo_range_2]
  · unfold take_observation
    rw [hn, show List.range 3 = [0, 1, 2] from rfl]
    simp only [List.map_cons, List.map_nil]
    rw [demo_bearing_0, demo_bearing_1, demo_bearing_2]

end

end Laser
